import Mathlib

/-!
Verification development for the home-relay dashboard core:

* notification scheduler (app/services/notification_service.py),
* MQTT sensor engine and bridge request correlation (app/services/mqtt_service.py),
* SSE broadcast fan-out (app/services/sse_manager.py).

Instants of local time are embedded as integers counting seconds since an
epoch that falls on a local midnight; calendar dates are integers counting
days since that epoch, so the date containing instant t is t.fdiv 86400
(Python datetime .date()) and local midnights sit at exact multiples of
86400 (datetime.combine(day, datetime.min.time())).  Python float values
that the claims reason about are embedded as exact rationals.
-/

set_option linter.unusedVariables false

namespace HomeRelay

/-- Seconds per calendar day. -/
def secondsPerDay : Int := 86400

/-- The calendar day containing an instant (Python datetime .date()). -/
def dateOf (t : Int) : Int := t.fdiv secondsPerDay

namespace Notif

/-- A row of the events table as read back by the scan queries, after
date.fromisoformat of the stored due_date text: dueDate is the parsed
calendar day.  data is the raw JSON text column. -/
structure EventRow where
  id : Int
  etype : String
  name : String
  dueDate : Int
  data : Option String
  deriving DecidableEq

/-- Database state of the notification service: the events table, the
dismissed table (primary key event_id, dismissed_until an instant written
by dismiss_event; datetime.isoformat round-trips exactly through
datetime.fromisoformat, so the text column is embedded as the instant
itself), and type_preferences (enabled is the SQL tri-state NULL / 0 / 1,
embedded as Option Bool). -/
structure NotifDb where
  events : List EventRow
  dismissed : List (Int × Int)
  prefs : List (String × Option Bool)
  deriving DecidableEq

/-- SQL lookup of dismissed.dismissed_until by event id, the LEFT JOIN of
the scan queries (event_id is the primary key, so at most one row). -/
def lookupDismiss (d : List (Int × Int)) (eid : Int) : Option Int :=
  (d.find? (fun p => p.1 == eid)).map (fun p => p.2)

/-- SQL lookup of type_preferences.enabled by type (primary key). -/
def lookupPref (p : List (String × Option Bool)) (t : String) : Option (Option Bool) :=
  (p.find? (fun q => q.1 == t)).map (fun q => q.2)

/-- An element of the due set built by _check_notifications and
get_due_notifications. -/
structure DueNotif where
  id : Int
  etype : String
  name : String
  dueDate : Int
  data : Option String
  is_overdue : Bool
  is_today : Bool
  is_tomorrow : Bool
  deriving DecidableEq

/-- Body of the per-row loop shared by _check_notifications and
get_due_notifications: skip the row while now < dismissed_until, else
include it iff it is overdue, due today, or due tomorrow, carrying the
three flags. -/
def checkRow (now : Int) (du : Option Int) (e : EventRow) : Option DueNotif :=
  let dismissedNow : Bool := match du with
    | some d => decide (now < d)
    | none => false
  if dismissedNow then none
  else
    let today := dateOf now
    let tomorrow := today + 1
    let is_overdue := e.dueDate < today
    let is_today := e.dueDate == today
    let is_tomorrow := e.dueDate == tomorrow
    if is_overdue || is_today || is_tomorrow then
      some ⟨e.id, e.etype, e.name, e.dueDate, e.data, is_overdue, is_today, is_tomorrow⟩
    else none

/-- One event row of the scan: the SQL INNER JOIN keeps the row only when
type_preferences.enabled = 1 for its type; the LEFT JOIN supplies
dismissed_until when a dismissal row exists. -/
def includeRow (now : Int) (db : NotifDb) (e : EventRow) : Option DueNotif :=
  if lookupPref db.prefs e.etype = some (some true) then
    checkRow now (lookupDismiss db.dismissed e.id) e
  else none

/-- The due set computed by _check_notifications and returned by
get_due_notifications (the ORDER BY due_date of the SQL query only fixes
presentation order and is not modelled; the claims are about membership). -/
def dueSet (now : Int) (db : NotifDb) : List DueNotif :=
  db.events.filterMap (includeRow now db)

/-- The batch SSE message shape pushed by _check_notifications. -/
structure NotifMsg where
  mtype : String
  items : List DueNotif
  deriving DecidableEq

/-- _check_notifications with the broadcaster installed by init: broadcasts
the whole due set as one batch message when it is non-empty, and
broadcasts nothing when it is empty. -/
def checkNotifications (now : Int) (db : NotifDb) : Option NotifMsg :=
  let due := dueSet now db
  if due.isEmpty then none else some ⟨"notifications", due⟩

/-- Result dict of dismiss_event. -/
structure DismissResult where
  success : Bool
  dismissed_until : Int
  deriving DecidableEq

/-- Python `hours or 4` with hours of type int or None: None and 0 are
falsy and yield the default 4. -/
def hoursOrDefault : Option Int → Int
  | none => 4
  | some h => if h = 0 then 4 else h

/-- The dismissed_until instant computed by dismiss_event: permanent takes
now + 3650 days, else until_midnight takes the next local midnight
(datetime.combine(date.today() + 1 day, midnight)), else now + hours. -/
def dismissedUntilFor (now : Int) (hours : Option Int)
    (permanent untilMidnight : Bool) : Int :=
  if permanent then now + 3650 * secondsPerDay
  else if untilMidnight then (dateOf now + 1) * secondsPerDay
  else now + 3600 * hoursOrDefault hours

/-- SQL INSERT .. ON CONFLICT(event_id) DO UPDATE on the dismissed table:
update the single row with this primary key if present (under the primary
key invariant the map touches exactly that row), else append a new row. -/
def upsertDismiss (d : List (Int × Int)) (eid : Int) (du : Int) : List (Int × Int) :=
  if d.any (fun p => p.1 == eid) then
    d.map (fun p => if p.1 == eid then (eid, du) else p)
  else d ++ [(eid, du)]

/-- dismiss_event(event_id, hours, permanent, until_midnight): writes the
dismissal row for the given id (whether or not an event row with that id
exists) and reports success unconditionally. -/
def dismissEvent (now : Int) (eid : Int) (hours : Option Int)
    (permanent untilMidnight : Bool) (db : NotifDb) : NotifDb × DismissResult :=
  let du := dismissedUntilFor now hours permanent untilMidnight
  ({ db with dismissed := upsertDismiss db.dismissed eid du }, ⟨true, du⟩)

/-- A row of the events table at the text level, as add_event manipulates
it: dueDate is the stored due_date text column. -/
structure EventS where
  id : Int
  etype : String
  name : String
  dueDate : String
  data : Option String
  deriving DecidableEq

/-- Text-level database state used by add_event: events, dismissed
(event_id with its dismissed_until text), type_preferences, and the
AUTOINCREMENT counter for the next event id. -/
structure NotifDbS where
  events : List EventS
  dismissed : List (Int × String)
  prefs : List (String × Option Bool)
  nextId : Int
  deriving DecidableEq

/-- SQL lookup of dismissed.dismissed_until at the text level. -/
def lookupDismissS (d : List (Int × String)) (eid : Int) : Option String :=
  (d.find? (fun p => p.1 == eid)).map (fun p => p.2)

/-- due_date.split("T")[0] when a "T" occurs in due_date, the unchanged
text otherwise: in both cases the characters before the first "T". -/
def normalizeDueDate (s : String) : String :=
  ⟨s.data.takeWhile (fun c => c ≠ 'T')⟩

/-- Result dict of add_event. -/
structure AddResult where
  success : Bool
  id : Int
  deriving DecidableEq

/-- INSERT OR IGNORE INTO type_preferences (type, enabled) VALUES (?, NULL):
a no-op when the type (primary key) is already present. -/
def ensurePref (p : List (String × Option Bool)) (t : String) :
    List (String × Option Bool) :=
  if p.any (fun q => q.1 == t) then p else p ++ [(t, none)]

/-- add_event(event_type, name, due_date, data): normalizes due_date,
registers the type as unconfigured if unknown, then INSERT .. ON
CONFLICT(type, name) DO UPDATE SET due_date, data RETURNING id (under the
UNIQUE(type, name) invariant the map touches exactly the conflicting row
and RETURNING yields its unchanged id); finally, if a row existed and its
stored due_date differs from the new value, DELETE FROM dismissed for
that event id. -/
def addEvent (etype name dueDate : String) (data : Option String)
    (db : NotifDbS) : NotifDbS × AddResult :=
  let dd := normalizeDueDate dueDate
  let prefs := ensurePref db.prefs etype
  match db.events.find? (fun e => e.etype == etype && e.name == name) with
  | some e =>
    let events := db.events.map (fun x =>
      if x.etype == etype && x.name == name then
        { x with dueDate := dd, data := data }
      else x)
    let dismissed :=
      if e.dueDate ≠ dd then db.dismissed.filter (fun p => p.1 ≠ e.id)
      else db.dismissed
    ({ db with events := events, prefs := prefs, dismissed := dismissed },
      ⟨true, e.id⟩)
  | none =>
    let events := db.events ++ [⟨db.nextId, etype, name, dd, data⟩]
    ({ db with events := events, prefs := prefs, nextId := db.nextId + 1 },
      ⟨true, db.nextId⟩)

end Notif

namespace Mqtt

/-- MAX_CACHE_AGE = 90 * 60 seconds. -/
def MAX_CACHE_AGE : ℚ := 90 * 60

/-- HISTORY_SIZE = 60. -/
def HISTORY_SIZE : Nat := 60

/-- TREND_THRESHOLD_TEMP = 0.3 degrees C. -/
def TREND_THRESHOLD_TEMP : ℚ := 0.3

/-- TREND_THRESHOLD_HUMIDITY = 1.5 percent. -/
def TREND_THRESHOLD_HUMIDITY : ℚ := 1.5

/-- The SensorReading dataclass with its field defaults. -/
structure SensorReading where
  temperature : ℚ := 0
  humidity : ℚ := 0
  battery : Int := 100
  timestamp : ℚ := 0
  deriving DecidableEq

/-- A parsed role-mapped sensor JSON payload: each field that on_message
reads with data.get may be absent. -/
structure SensorPayload where
  temperature : Option ℚ
  humidity : Option ℚ
  battery : Option Int
  deriving DecidableEq

/-- The SensorReading constructed by on_message for a role-mapped topic:
data.get defaults temperature and humidity to 0 and battery to 100, and
stamps the current time. -/
def readingOfPayload (now : ℚ) (p : SensorPayload) : SensorReading :=
  { temperature := p.temperature.getD 0
    humidity := p.humidity.getD 0
    battery := p.battery.getD 100
    timestamp := now }

/-- collections.deque(maxlen := cap).append: drop from the left whatever
exceeds the capacity after appending on the right. -/
def dequeAppend {α : Type _} (cap : Nat) (xs : List α) (x : α) : List α :=
  let ys := xs ++ [x]
  ys.drop (ys.length - cap)

/-- The per-role SensorData dataclass: the current reading and the bounded
history deque. -/
structure SensorData where
  current : SensorReading := {}
  history : List SensorReading := []
  deriving DecidableEq

/-- The state update of the sensor branch of on_message: append the
reading to the role history deque and make it current. -/
def appendReading (r : SensorReading) (s : SensorData) : SensorData :=
  { current := r, history := dequeAppend HISTORY_SIZE s.history r }

/-- The sensor branch of on_message: json.loads plus field access is
embedded as Option SensorPayload, none standing for any malformed payload
whose processing raises; the enclosing try/except then leaves the role
state unchanged. -/
def onSensorMessage (now : ℚ) (payload : Option SensorPayload)
    (s : SensorData) : SensorData :=
  match payload with
  | none => s
  | some p => appendReading (readingOfPayload now p) s

/-- A sequence of readings appended to a role history in arrival order. -/
def applyReadings (rs : List SensorReading) (s : SensorData) : SensorData :=
  rs.foldl (fun st r => appendReading r st) s

/-- c_to_f. -/
def c_to_f (t : ℚ) : ℚ := t * 9 / 5 + 32

/-- Python float division: raises ZeroDivisionError on a zero divisor,
embedded as none. -/
def pdiv (x y : ℚ) : Option ℚ := if y = 0 then none else some (x / y)

/-- feels_like(temp_c, humidity) over exact rationals.  math.log is passed
as a parameter defined only on strictly positive arguments, so this
definition type-checking certifies that the logarithm is applied only to
strictly positive inputs; the two divisions whose divisors are not fixed
nonzero literals are checked Python divisions. -/
def feelsLike (lg : (x : ℚ) → 0 < x → ℚ) (temp_c humidity : ℚ) : Option ℚ :=
  let temp_f := temp_c * 9 / 5 + 32
  if temp_f ≥ 80 ∧ humidity ≥ 40 then
    let hi :=
      -42.379
      + 2.04901523 * temp_f
      + 10.14333127 * humidity
      - 0.22475541 * temp_f * humidity
      - 0.00683783 * temp_f ^ 2
      - 0.05481717 * humidity ^ 2
      + 0.00122874 * temp_f ^ 2 * humidity
      + 0.00085282 * temp_f * humidity ^ 2
      - 0.00000199 * temp_f ^ 2 * humidity ^ 2
    some ((hi - 32) * 5 / 9)
  else if h : humidity ≤ 0 then some temp_c
  else
    let a : ℚ := 17.62
    let b : ℚ := 243.12
    match pdiv (a * temp_c) (b + temp_c) with
    | none => none
    | some q =>
      let gamma := lg (humidity / 100) (by
        have hh : 0 < humidity := lt_of_not_le h
        positivity) + q
      match pdiv (b * gamma) (a - gamma) with
      | none => none
      | some dew_point => some (temp_c + (dew_point - temp_c) * 0.1)

/-- get_trend(current, history, attr): compare against the second-newest
reading of the history; the selector and threshold stand for the attr
dispatch of the source. -/
def getTrend (sel : SensorReading → ℚ) (threshold : ℚ) (current : ℚ)
    (history : List SensorReading) : String :=
  if history.length < 2 then "steady"
  else
    let prev := sel (history.getD (history.length - 2) {})
    let diff := current - prev
    if diff > threshold then "rising"
    else if diff < -threshold then "falling"
    else "steady"

/-- The dict returned by sensor_response: available is False in the first
constructor, whose optional error field distinguishes the three
unavailable states (absent, Waiting for data, Sensor offline); the second
constructor is the available reading with its derived fields. -/
inductive SensorResp where
  | unavailable (error : Option String)
  | available (temperature humidity fl : ℚ)
      (temperatureTrend humidityTrend : String) (battery : Int)
      (ageSeconds : ℚ)
  deriving DecidableEq

/-- sensor_response(key): cfgDevice is sensor_config.get(key) (empty when
the role is unassigned), unit is sensor_config.get(unit); rnd1 and rnd0
stand for Python round(x, 1) and round(x).  A none result embeds the
ZeroDivisionError that feels_like can raise escaping sensor_response,
which has no handler. -/
def sensorResponse (lg : (x : ℚ) → 0 < x → ℚ) (rnd1 rnd0 : ℚ → ℚ)
    (cfgDevice unit : String) (s : SensorData) (now : ℚ) :
    Option SensorResp :=
  if cfgDevice = "" then some (.unavailable none)
  else
    let c := s.current
    if c.timestamp = 0 then some (.unavailable (some "Waiting for data"))
    else if now - c.timestamp > MAX_CACHE_AGE then
      some (.unavailable (some "Sensor offline"))
    else
      match feelsLike lg c.temperature c.humidity with
      | none => none
      | some fl0 =>
        let temp := if unit = "F" then c_to_f c.temperature else c.temperature
        let fl := if unit = "F" then c_to_f fl0 else fl0
        some (.available (rnd1 temp) (rnd1 c.humidity) (rnd1 fl)
          (getTrend (fun r => r.temperature) TREND_THRESHOLD_TEMP
            c.temperature s.history)
          (getTrend (fun r => r.humidity) TREND_THRESHOLD_HUMIDITY
            c.humidity s.history)
          c.battery (rnd0 (now - c.timestamp)))

/-- A result dict flowing through the bridge request correlation: the
relay builds success and error dicts with these exact strings, the bridge
replies are opaque payloads stored by on_message, and emptyDict is the
default of _request_results.pop(transaction_id, empty dict). -/
inductive Resp where
  | dict (success : Bool) (error : String)
  | bridge (payload : String)
  | emptyDict
  deriving DecidableEq

/-- The timeout result of _send_bridge_request. -/
def timedOutResult : Resp := .dict false "Request timed out"

/-- The not-connected result of _send_bridge_request. -/
def notConnectedResult : Resp := .dict false "MQTT not connected"

/-- The correlation state: _pending_requests keys (transaction ids holding
a registered threading.Event) and _request_results. -/
structure ReqState where
  pending : List String
  results : List (String × Resp)
  deriving DecidableEq

/-- Dict assignment _request_results[tid] = data. -/
def setResult (rs : List (String × Resp)) (tid : String) (r : Resp) :
    List (String × Resp) :=
  if rs.any (fun p => p.1 == tid) then
    rs.map (fun p => if p.1 == tid then (tid, r) else p)
  else rs ++ [(tid, r)]

/-- Dict lookup of _request_results. -/
def lookupResult (rs : List (String × Resp)) (tid : String) : Option Resp :=
  (rs.find? (fun p => p.1 == tid)).map (fun p => p.2)

/-- The bridge-response branch of on_message: when the transaction id is
still pending, store the result and signal the waiting event; otherwise
the reply is dropped and the state is untouched. -/
def onBridgeResponse (tid : String) (r : Resp) (st : ReqState) : ReqState :=
  if tid ∈ st.pending then
    { st with results := setResult st.results tid r }
  else st

/-- The finally block of _send_bridge_request: pop the pending entry and
any stored result for the transaction id. -/
def removeTid (tid : String) (st : ReqState) : ReqState :=
  { pending := st.pending.erase tid
    results := st.results.eraseP (fun p => p.1 == tid) }

/-- _send_bridge_request(topic, payload, timeout), sequentialized: reply
is the matching bridge reply delivered before the timeout elapses, if
any.  When none arrives the call returns the timed-out dict; when one
arrives the delivery thread runs onBridgeResponse and the caller pops the
stored result; the finally block always removes the transaction. -/
def sendBridgeRequest (connected : Bool) (tid : String) (reply : Option Resp)
    (st : ReqState) : ReqState × Resp :=
  if connected = false then (st, notConnectedResult)
  else
    let st1 : ReqState := { st with pending := st.pending ++ [tid] }
    match reply with
    | some r =>
      let st2 := onBridgeResponse tid r st1
      let res := (lookupResult st2.results tid).getD .emptyDict
      (removeTid tid st2, res)
    | none => (removeTid tid st1, timedOutResult)

end Mqtt

namespace SSE

/-- A subscriber of an SSEManager: its bounded queue.Queue (maxsize cap,
10 for subscribers created by subscribe) with the queued messages. -/
structure Subscriber where
  cap : Nat
  queue : List String
  deriving DecidableEq

/-- queue.Queue.put_nowait: enqueue when the queue is below capacity,
raise queue.Full (none) otherwise, never blocking. -/
def putNowait (msg : String) (s : Subscriber) : Option Subscriber :=
  if s.queue.length < s.cap then some { s with queue := s.queue ++ [msg] }
  else none

/-- SSEManager.broadcast: attempt a non-blocking enqueue to every current
subscriber and remove those whose queue was full (the dead_queues
collection followed by removal). -/
def broadcast (msg : String) (subs : List Subscriber) : List Subscriber :=
  subs.filterMap (putNowait msg)

/-- A sequence of broadcast calls. -/
def broadcastAll (msgs : List String) (subs : List Subscriber) :
    List Subscriber :=
  msgs.foldl (fun ss m => broadcast m ss) subs

/-- The fate of one subscriber that never dequeues across a sequence of
broadcasts: none once an enqueue fails. -/
def feedAll (msgs : List String) (s : Subscriber) : Option Subscriber :=
  match msgs with
  | [] => some s
  | m :: t => (putNowait m s).bind (feedAll t)

end SSE

/-! Theorems. -/

theorem find?_of_filter_single {α : Type _} (p : α → Bool) (l : List α) (e : α)
    (h : l.filter p = [e]) : l.find? p = some e := by
  induction l with
  | nil => simp at h
  | cons x t ih =>
    by_cases hx : p x = true
    · rw [List.filter_cons_of_pos hx] at h
      simp only [List.cons.injEq] at h
      rw [List.find?_cons_of_pos _ hx, h.1]
    · rw [List.filter_cons_of_neg hx] at h
      rw [List.find?_cons_of_neg _ hx]
      exact ih h

theorem map_id_of_filter_nil {α : Type _} (p : α → Bool) (f : α → α)
    (l : List α) (h : l.filter p = []) :
    l.map (fun x => if p x then f x else x) = l := by
  induction l with
  | nil => rfl
  | cons x t ih =>
    by_cases hx : p x = true
    · rw [List.filter_cons_of_pos hx] at h
      exact absurd h (by simp)
    · rw [List.filter_cons_of_neg hx] at h
      simp only [List.map_cons, if_neg hx]
      rw [ih h]

theorem filter_map_update {α : Type _} (p : α → Bool) (f : α → α) (l : List α)
    (e : α) (h : l.filter p = [e]) (hfe : p (f e) = true) :
    (l.map (fun x => if p x then f x else x)).filter p = [f e] := by
  induction l with
  | nil => simp at h
  | cons x t ih =>
    by_cases hx : p x = true
    · rw [List.filter_cons_of_pos hx] at h
      simp only [List.cons.injEq] at h
      obtain ⟨rfl, ht⟩ := h
      simp only [List.map_cons, if_pos hx]
      rw [List.filter_cons_of_pos hfe, map_id_of_filter_nil p f t ht, ht]
    · rw [List.filter_cons_of_neg hx] at h
      simp only [List.map_cons, if_neg hx]
      rw [List.filter_cons_of_neg hx]
      exact ih h

namespace Notif

theorem lookupDismiss_cons (p : Int × Int) (l : List (Int × Int)) (eid : Int) :
    lookupDismiss (p :: l) eid =
      if p.1 == eid then some p.2 else lookupDismiss l eid := by
  by_cases h : (p.1 == eid) = true
  · simp [lookupDismiss, List.find?_cons_of_pos, h]
  · simp [lookupDismiss, List.find?_cons_of_neg, h]

theorem lookupDismiss_append_notMem (d : List (Int × Int)) (eid du : Int)
    (h : d.any (fun p => p.1 == eid) = false) :
    lookupDismiss (d ++ [(eid, du)]) eid = some du := by
  induction d with
  | nil => simp [lookupDismiss]
  | cons p rest ih =>
    simp only [List.any_cons, Bool.or_eq_false_iff] at h
    rw [List.cons_append, lookupDismiss_cons, if_neg (by simp [h.1]), ih h.2]

theorem lookupDismiss_map_set (d : List (Int × Int)) (eid du : Int)
    (h : d.any (fun p => p.1 == eid) = true) :
    lookupDismiss (d.map (fun p => if p.1 == eid then (eid, du) else p)) eid =
      some du := by
  induction d with
  | nil => simp at h
  | cons p rest ih =>
    by_cases hp : p.1 = eid
    · simp [List.map_cons, lookupDismiss_cons, hp]
    · have hr : rest.any (fun p => p.1 == eid) = true := by
        simp only [List.any_cons, Bool.or_eq_true] at h
        rcases h with h | h
        · exact absurd (by simpa using h) hp
        · exact h
      rw [List.map_cons, lookupDismiss_cons, if_neg (by simp [hp])]
      exact ih hr

theorem lookupDismiss_upsertDismiss (d : List (Int × Int)) (eid du : Int) :
    lookupDismiss (upsertDismiss d eid du) eid = some du := by
  unfold upsertDismiss
  by_cases h : d.any (fun p => p.1 == eid) = true
  · rw [if_pos h]
    exact lookupDismiss_map_set d eid du h
  · rw [if_neg h]
    refine lookupDismiss_append_notMem d eid du ?_
    revert h
    cases d.any (fun p => p.1 == eid) <;> simp

theorem checkRow_eq (now : Int) (du : Option Int) (e : EventRow) :
    checkRow now du e =
      if (match du with | some d0 => decide (now < d0) | none => false) = true
      then none
      else
        if (decide (e.dueDate < dateOf now) || (e.dueDate == dateOf now) ||
            (e.dueDate == dateOf now + 1)) = true then
          some ⟨e.id, e.etype, e.name, e.dueDate, e.data,
            decide (e.dueDate < dateOf now), e.dueDate == dateOf now,
            e.dueDate == dateOf now + 1⟩
        else none := rfl

theorem checkRow_id (now : Int) (du : Option Int) (e : EventRow) (d : DueNotif)
    (h : checkRow now du e = some d) : d.id = e.id := by
  rw [checkRow_eq] at h
  split at h
  · exact absurd h (by simp)
  · split at h
    · simp only [Option.some.injEq] at h
      subst h
      rfl
    · exact absurd h (by simp)

theorem checkRow_dismissed (now d0 : Int) (e : EventRow) (h : now < d0) :
    checkRow now (some d0) e = none := by
  rw [checkRow_eq]
  simp [h]

theorem checkRow_isSome (now : Int) (du : Option Int) (e : EventRow) :
    (checkRow now du e).isSome ↔
      (¬∃ d0, du = some d0 ∧ now < d0) ∧
        (e.dueDate < dateOf now ∨ e.dueDate = dateOf now ∨
          e.dueDate = dateOf now + 1) := by
  rw [checkRow_eq]
  by_cases hd : e.dueDate < dateOf now ∨ e.dueDate = dateOf now ∨
      e.dueDate = dateOf now + 1
  · cases du with
    | none => simp [hd, or_assoc]
    | some d0 =>
      by_cases hlt : now < d0
      · simp [hlt]
      · simp [hlt, hd, or_assoc]
  · cases du with
    | none => simp [hd, or_assoc]
    | some d0 =>
      by_cases hlt : now < d0
      · simp [hlt]
      · simp [hlt, hd, or_assoc]

/-- C1 (counterexample): dismissing event 1 permanently at instant 0 writes
dismissed_until = now + 3650 days, so an evaluation 3651 days later — well
within 100 years of the dismissal, with no intervening add_event — includes
the event in the due set again. -/
theorem c1_counterexample :
    (3651 * secondsPerDay - 0 ≤ 100 * 365 * secondsPerDay) ∧
    (dueSet (3651 * secondsPerDay)
        (dismissEvent 0 1 none true false
          ⟨[⟨1, "shot", "Test", 0, none⟩], [], [("shot", some true)]⟩).1).map
      (fun d => d.id) = [1] := by
  constructor
  · decide
  · decide

/-- C1 (amended): after dismiss_event(id, permanent := true) at instant now,
every subsequent evaluation instant strictly before now + 3650 days (the
far-future sentinel the code writes, about ten years, not 100 years) never
includes that event in the due set, with no intervening add_event. -/
theorem c1_permanent_dismissal_window (now t1 eid : Int) (hours : Option Int)
    (um : Bool) (db : NotifDb) (h1 : now ≤ t1)
    (h2 : t1 < now + 3650 * secondsPerDay) :
    (dueSet t1 (dismissEvent now eid hours true um db).1).all
      (fun d => d.id != eid) = true := by
  simp only [dueSet, List.all_eq_true, List.mem_filterMap]
  rintro d ⟨e, he, hinc⟩
  simp only [bne_iff_ne, ne_eq]
  intro hde
  unfold includeRow at hinc
  split at hinc
  · have hid : d.id = e.id := checkRow_id _ _ _ _ hinc
    have he2 : e.id = eid := by rw [← hid, hde]
    have hlu : lookupDismiss (dismissEvent now eid hours true um db).1.dismissed
        eid = some (now + 3650 * secondsPerDay) := by
      simp only [dismissEvent, dismissedUntilFor, if_pos]
      exact lookupDismiss_upsertDismiss _ _ _
    rw [he2, hlu] at hinc
    rw [checkRow_dismissed t1 _ e h2] at hinc
    exact absurd hinc (by simp)
  · exact absurd hinc (by simp)

theorem c1_permanent_dismissal_window_witness :
    (dueSet 100 (dismissEvent 0 1 none true false
        ⟨[⟨1, "shot", "Test", 0, none⟩], [], [("shot", some true)]⟩).1).all
      (fun d => d.id != 1) = true :=
  c1_permanent_dismissal_window 0 100 1 none false _ (by decide) (by decide)

/-- C2: a scanned event row is included in the due set iff its type
preference is explicitly enabled (NULL and 0 never surface), at least one
of overdue / due today / due tomorrow holds, and it is not currently
dismissed (now strictly before dismissed_until); the due set is the scan
over all event rows, and _check_notifications broadcasts it as one batch
message exactly when it is non-empty. -/
theorem c2_due_membership_iff_and_batch (now : Int) (db : NotifDb)
    (e : EventRow) :
    ((includeRow now db e).isSome ↔
      lookupPref db.prefs e.etype = some (some true) ∧
        (e.dueDate < dateOf now ∨ e.dueDate = dateOf now ∨
          e.dueDate = dateOf now + 1) ∧
        ¬∃ du, lookupDismiss db.dismissed e.id = some du ∧ now < du) ∧
    dueSet now db = db.events.filterMap (includeRow now db) ∧
    (dueSet now db = [] → checkNotifications now db = none) ∧
    (dueSet now db ≠ [] →
      checkNotifications now db = some ⟨"notifications", dueSet now db⟩) := by
  refine ⟨?_, rfl, ?_, ?_⟩
  · by_cases hp : lookupPref db.prefs e.etype = some (some true)
    · simp only [includeRow, if_pos hp]
      rw [checkRow_isSome]
      constructor
      · rintro ⟨hnd, hdue⟩
        exact ⟨hp, hdue, hnd⟩
      · rintro ⟨-, hdue, hnd⟩
        exact ⟨hnd, hdue⟩
    · simp only [includeRow, if_neg hp]
      simp [hp]
  · intro h
    simp [checkNotifications, h]
  · intro h
    simp [checkNotifications, List.isEmpty_iff, h]

theorem c2_due_membership_iff_and_batch_witness :
    checkNotifications 0 ⟨[⟨1, "shot", "T", 0, none⟩], [], [("shot", some true)]⟩ =
      some ⟨"notifications",
        dueSet 0 ⟨[⟨1, "shot", "T", 0, none⟩], [], [("shot", some true)]⟩⟩ :=
  (c2_due_membership_iff_and_batch 0 _ ⟨1, "shot", "T", 0, none⟩).2.2.2
    (by decide)

/-- C9 (counterexample): dismiss_event with hours = 0 and no mode flags
yields dismissed_until = now + 4 hours (Python hours or 4 treats 0 as
falsy), not now + 0 hours as the claim states for non-None hours. -/
theorem c9_counterexample :
    (dismissEvent 0 7 (some 0) false false ⟨[], [], []⟩).2.dismissed_until =
        14400 ∧
    (dismissEvent 0 7 (some 0) false false ⟨[], [], []⟩).2.dismissed_until ≠
        0 + 3600 * 0 := by
  constructor
  · decide
  · decide

/-- C9 (amended): dismiss_event resolves multiple mode flags by fixed
precedence — permanent overrides until_midnight and hours (now + 3650
days), else until_midnight overrides hours (next local midnight), else
now + hours with hours defaulting to 4 when it is None or 0 — and returns
success for every event id, touching no event row, writing the dismissal
row even for ids with no corresponding event. -/
theorem c9_dismiss_precedence_and_success (now eid : Int) (hours : Option Int)
    (p um : Bool) (db : NotifDb) :
    (dismissEvent now eid hours p um db).2.success = true ∧
    (dismissEvent now eid hours p um db).1.events = db.events ∧
    lookupDismiss (dismissEvent now eid hours p um db).1.dismissed eid =
      some (dismissedUntilFor now hours p um) ∧
    (p = true →
      (dismissEvent now eid hours p um db).2.dismissed_until =
        now + 3650 * secondsPerDay) ∧
    (p = false → um = true →
      (dismissEvent now eid hours p um db).2.dismissed_until =
        (dateOf now + 1) * secondsPerDay) ∧
    (p = false → um = false →
      (dismissEvent now eid hours p um db).2.dismissed_until =
        now + 3600 * hoursOrDefault hours) ∧
    hoursOrDefault none = 4 ∧ hoursOrDefault (some 0) = 4 := by
  refine ⟨rfl, rfl, lookupDismiss_upsertDismiss _ _ _, ?_, ?_, ?_, rfl, rfl⟩
  · intro hp
    simp [dismissEvent, dismissedUntilFor, hp]
  · intro hp hm
    simp [dismissEvent, dismissedUntilFor, hp, hm]
  · intro hp hm
    simp [dismissEvent, dismissedUntilFor, hp, hm]

theorem c9_dismiss_precedence_and_success_witness :
    (dismissEvent 5 1 none true true ⟨[], [], []⟩).2.success = true ∧
    (dismissEvent 5 1 none true true ⟨[], [], []⟩).2.dismissed_until =
      5 + 3650 * secondsPerDay :=
  ⟨(c9_dismiss_precedence_and_success 5 1 none true true ⟨[], [], []⟩).1,
    (c9_dismiss_precedence_and_success 5 1 none true true ⟨[], [], []⟩).2.2.2.1
      rfl⟩

theorem lookupDismissS_filter_self (d : List (Int × String)) (eid : Int) :
    lookupDismissS (d.filter (fun p => p.1 ≠ eid)) eid = none := by
  unfold lookupDismissS
  have hall : ∀ x ∈ d.filter (fun p => decide (p.1 ≠ eid)),
      ¬((fun p => p.1 == eid) x = true) := by
    intro x hx
    have hm := List.of_mem_filter hx
    simp only [decide_eq_true_eq] at hm
    simp [hm]
  rw [List.find?_eq_none.mpr hall]
  rfl

/-- C3: add_event on an existing (type, name) pair updates the row in
place — same id, still exactly one (type, name) row — normalizes the new
due_date by stripping everything from the first T on, deletes the
dismissal record iff the normalized due_date differs from the stored one,
and leaves the dismissed table untouched when it is equal. -/
theorem c3_upsert_existing_event (st : NotifDbS) (etype name dd : String)
    (data : Option String) (e : EventS)
    (huniq : st.events.filter
        (fun x => x.etype == etype && x.name == name) = [e]) :
    (addEvent etype name dd data st).2 = ⟨true, e.id⟩ ∧
    (addEvent etype name dd data st).1.events =
      st.events.map (fun x =>
        if x.etype == etype && x.name == name then
          { x with dueDate := normalizeDueDate dd, data := data }
        else x) ∧
    (addEvent etype name dd data st).1.events.filter
        (fun x => x.etype == etype && x.name == name) =
      [{ e with dueDate := normalizeDueDate dd, data := data }] ∧
    (normalizeDueDate dd ≠ e.dueDate →
      lookupDismissS (addEvent etype name dd data st).1.dismissed e.id =
        none) ∧
    (normalizeDueDate dd = e.dueDate →
      (addEvent etype name dd data st).1.dismissed = st.dismissed) := by
  have hfind : st.events.find?
      (fun x => x.etype == etype && x.name == name) = some e :=
    find?_of_filter_single _ _ _ huniq
  have hme : e ∈ st.events.filter
      (fun x => x.etype == etype && x.name == name) := by
    rw [huniq]
    exact List.mem_singleton_self e
  have hpe0 : (e.etype == etype && e.name == name) = true := by
    simpa using List.of_mem_filter hme
  simp only [addEvent, hfind]
  refine ⟨trivial, trivial, ?_, ?_, ?_⟩
  · exact filter_map_update (fun x => x.etype == etype && x.name == name)
      (fun x => { x with dueDate := normalizeDueDate dd, data := data })
      st.events e huniq hpe0
  · intro hne
    rw [if_pos (Ne.symm hne)]
    exact lookupDismissS_filter_self st.dismissed e.id
  · intro heq
    rw [if_neg (fun hc => hc heq.symm)]

theorem c3_upsert_existing_event_witness :
    (addEvent "shot" "A" "2026-02-03T12:00" none
        ⟨[⟨1, "shot", "A", "2026-01-01", none⟩], [(1, "x")],
          [("shot", some true)], 2⟩).2 = ⟨true, 1⟩ ∧
    lookupDismissS (addEvent "shot" "A" "2026-02-03T12:00" none
        ⟨[⟨1, "shot", "A", "2026-01-01", none⟩], [(1, "x")],
          [("shot", some true)], 2⟩).1.dismissed 1 = none :=
  ⟨(c3_upsert_existing_event _ "shot" "A" "2026-02-03T12:00" none
      ⟨1, "shot", "A", "2026-01-01", none⟩ (by decide)).1,
    (c3_upsert_existing_event _ "shot" "A" "2026-02-03T12:00" none
      ⟨1, "shot", "A", "2026-01-01", none⟩ (by decide)).2.2.2.1 (by decide)⟩

end Notif

namespace Mqtt

theorem dequeAppend_eq {α : Type _} (cap : Nat) (xs : List α) (x : α) :
    dequeAppend cap xs x = (xs ++ [x]).drop ((xs.length + 1) - cap) := by
  show (xs ++ [x]).drop ((xs ++ [x]).length - cap) = _
  rw [List.length_append, List.length_singleton]

theorem length_dequeAppend_le {α : Type _} (cap : Nat) (xs : List α) (x : α) :
    (dequeAppend cap xs x).length ≤ cap := by
  rw [dequeAppend_eq, List.length_drop, List.length_append,
    List.length_singleton]
  omega

theorem applyReadings_cons (r : SensorReading) (t : List SensorReading)
    (s : SensorData) :
    applyReadings (r :: t) s = applyReadings t (appendReading r s) := rfl

theorem applyReadings_history (rs : List SensorReading) (s : SensorData)
    (hs : s.history.length ≤ HISTORY_SIZE) :
    (applyReadings rs s).history =
      (s.history ++ rs).drop ((s.history.length + rs.length) - HISTORY_SIZE) := by
  induction rs generalizing s with
  | nil =>
    simp only [applyReadings, List.foldl_nil, List.append_nil,
      List.length_nil]
    rw [(by omega : s.history.length + 0 - HISTORY_SIZE = 0), List.drop_zero]
  | cons r t ih =>
    rw [applyReadings_cons, ih (appendReading r s)
      (length_dequeAppend_le HISTORY_SIZE s.history r)]
    have hd : (appendReading r s).history =
        (s.history ++ [r]).drop ((s.history.length + 1) - HISTORY_SIZE) :=
      dequeAppend_eq HISTORY_SIZE s.history r
    rw [hd]
    simp only [List.length_drop, List.length_append, List.length_singleton,
      List.length_cons, List.length_nil]
    rw [← List.drop_append_of_le_length (by
      rw [List.length_append, List.length_singleton]
      omega)]
    rw [List.drop_drop, List.append_assoc, List.singleton_append]
    congr 1
    omega

theorem applyReadings_current (rs : List SensorReading) (s : SensorData)
    (r : SensorReading) (h : rs.getLast? = some r) :
    (applyReadings rs s).current = r := by
  induction rs generalizing s with
  | nil => simp at h
  | cons x t ih =>
    cases t with
    | nil =>
      simp only [List.getLast?_singleton, Option.some.injEq] at h
      subst h
      rfl
    | cons y u =>
      rw [List.getLast?_cons_cons] at h
      rw [applyReadings_cons]
      exact ih (appendReading x s) h

/-- C6: appending any sequence of readings to a fresh role history keeps
the history a suffix of the arrival sequence (oldest dropped first, order
preserved), never longer than the capacity 60, and leaves current equal to
the most recently appended reading. -/
theorem c6_history_fifo_bound (rs : List SensorReading) :
    (applyReadings rs ({} : SensorData)).history =
      rs.drop (rs.length - HISTORY_SIZE) ∧
    (applyReadings rs ({} : SensorData)).history.length ≤ HISTORY_SIZE ∧
    ∀ r, rs.getLast? = some r → (applyReadings rs ({} : SensorData)).current = r := by
  have h1 := applyReadings_history rs ({} : SensorData) (by simp [HISTORY_SIZE])
  simp only [List.nil_append, List.length_nil, Nat.zero_add] at h1
  refine ⟨h1, ?_, fun r h => applyReadings_current rs _ r h⟩
  rw [h1, List.length_drop]
  omega

theorem c6_history_fifo_bound_witness :
    (applyReadings [{}, { temperature := 1 }] ({} : SensorData)).current =
      ({ temperature := 1 } : SensorReading) ∧
    (applyReadings [{}, { temperature := 1 }] ({} : SensorData)).history.length ≤
      HISTORY_SIZE :=
  ⟨(c6_history_fifo_bound [{}, { temperature := 1 }]).2.2 { temperature := 1 }
      (by decide),
    (c6_history_fifo_bound [{}, { temperature := 1 }]).2.1⟩

end Mqtt

namespace SSE

theorem broadcastAll_cons_msg (m : String) (t : List String)
    (subs : List Subscriber) :
    broadcastAll (m :: t) subs = broadcastAll t (broadcast m subs) := rfl

theorem broadcastAll_eq_filterMap (msgs : List String)
    (subs : List Subscriber) :
    broadcastAll msgs subs = subs.filterMap (feedAll msgs) := by
  induction msgs generalizing subs with
  | nil =>
    show subs = subs.filterMap (feedAll [])
    have h0 : subs.filterMap (feedAll []) = subs.filterMap some := rfl
    rw [h0, List.filterMap_some]
  | cons m t ih =>
    rw [broadcastAll_cons_msg, ih, broadcast, List.filterMap_filterMap]
    rfl

theorem feedAll_dead (msgs : List String) (s : Subscriber)
    (h1 : s.queue.length ≤ s.cap)
    (h2 : s.cap < s.queue.length + msgs.length) :
    feedAll msgs s = none := by
  induction msgs generalizing s with
  | nil =>
    exfalso
    simp only [List.length_nil] at h2
    omega
  | cons m t ih =>
    by_cases hq : s.queue.length < s.cap
    · have hstep : feedAll (m :: t) s =
          feedAll t { s with queue := s.queue ++ [m] } := by
        simp [feedAll, putNowait, hq]
      rw [hstep]
      refine ih _ ?_ ?_
      · simp only [List.length_append, List.length_singleton]
        omega
      · simp only [List.length_append, List.length_singleton]
        simp only [List.length_cons] at h2
        omega
    · simp [feedAll, putNowait, hq]

theorem feedAll_alive (msgs : List String) (s : Subscriber)
    (h : s.queue.length + msgs.length ≤ s.cap) :
    feedAll msgs s = some { s with queue := s.queue ++ msgs } := by
  induction msgs generalizing s with
  | nil => simp [feedAll]
  | cons m t ih =>
    have hq : s.queue.length < s.cap := by
      simp only [List.length_cons] at h
      omega
    have hstep : feedAll (m :: t) s =
        feedAll t { s with queue := s.queue ++ [m] } := by
      simp [feedAll, putNowait, hq]
    rw [hstep, ih { s with queue := s.queue ++ [m] } ?_]
    · simp
    · simp only [List.length_append, List.length_singleton]
      simp only [List.length_cons] at h
      omega

/-- C7: across any 100 broadcasts, a subscriber with queue capacity 10
that never dequeues is removed from the subscriber set — the final set is
exactly what it would have been without that subscriber — while every
other subscriber with room for the whole sequence still receives every
message in order; broadcast uses the non-blocking put_nowait, so a full
queue makes the enqueue fail and the subscriber be dropped instead of
ever blocking the broadcaster. -/
theorem c7_full_queue_subscriber_removed (msgs : List String)
    (a : Subscriber) (subs : List Subscriber) (hlen : msgs.length = 100)
    (hcap : a.cap = 10) (hq : a.queue = []) :
    broadcastAll msgs (a :: subs) = broadcastAll msgs subs ∧
    ∀ s ∈ subs, s.queue.length + msgs.length ≤ s.cap →
      { s with queue := s.queue ++ msgs } ∈ broadcastAll msgs (a :: subs) := by
  have hdead : feedAll msgs a = none := by
    refine feedAll_dead msgs a ?_ ?_
    · rw [hq, hcap]
      simp
    · rw [hq, hcap, hlen]
      simp
  constructor
  · rw [broadcastAll_eq_filterMap, broadcastAll_eq_filterMap,
      List.filterMap_cons_none hdead]
  · intro s hs hsp
    rw [broadcastAll_eq_filterMap, List.mem_filterMap]
    exact ⟨s, List.mem_cons_of_mem a hs, feedAll_alive msgs s hsp⟩

theorem c7_full_queue_subscriber_removed_witness :
    broadcastAll (List.replicate 100 "m") [⟨10, []⟩, ⟨200, []⟩] =
      broadcastAll (List.replicate 100 "m") [⟨200, []⟩] ∧
    (⟨200, [] ++ List.replicate 100 "m"⟩ : Subscriber) ∈
      broadcastAll (List.replicate 100 "m") [⟨10, []⟩, ⟨200, []⟩] :=
  ⟨(c7_full_queue_subscriber_removed (List.replicate 100 "m") ⟨10, []⟩
      [⟨200, []⟩] (by simp) rfl rfl).1,
    (c7_full_queue_subscriber_removed (List.replicate 100 "m") ⟨10, []⟩
      [⟨200, []⟩] (by simp) rfl rfl).2 ⟨200, []⟩ (by simp) (by simp)⟩

end SSE

namespace Mqtt

theorem erase_append_singleton_self (l : List String) (tid : String)
    (h : tid ∉ l) : (l ++ [tid]).erase tid = l := by
  rw [List.erase_append_right _ h, List.erase_cons_head, List.append_nil]

/-- C5: a correlated bridge request that sees no matching reply within the
timeout returns the timed-out dict, which differs from the transport
not-connected dict; the finally block removes the pending transaction, so
the post state carries no entry for the transaction id; and a reply with
that id arriving after expiry makes the bridge-response branch of
on_message leave the state untouched — nothing is stored and no waiting
caller exists, so it is delivered to no one. -/
theorem c5_timeout_distinct_removed_discarded (tid : String) (st : ReqState)
    (h1 : tid ∉ st.pending) :
    (sendBridgeRequest true tid none st).2 = timedOutResult ∧
    timedOutResult ≠ notConnectedResult ∧
    (sendBridgeRequest true tid none st).1.pending = st.pending ∧
    tid ∉ (sendBridgeRequest true tid none st).1.pending ∧
    ∀ r, onBridgeResponse tid r (sendBridgeRequest true tid none st).1 =
      (sendBridgeRequest true tid none st).1 := by
  have hpend : (sendBridgeRequest true tid none st).1.pending = st.pending := by
    show ((st.pending ++ [tid]).erase tid) = st.pending
    exact erase_append_singleton_self st.pending tid h1
  refine ⟨rfl, by simp [timedOutResult, notConnectedResult], hpend, ?_, ?_⟩
  · rw [hpend]
    exact h1
  · intro r
    unfold onBridgeResponse
    rw [if_neg ?hmem]
    case hmem =>
      rw [hpend]
      exact h1

theorem c5_timeout_distinct_removed_discarded_witness :
    (sendBridgeRequest true "t1" none ⟨[], []⟩).2 = timedOutResult ∧
    onBridgeResponse "t1" (.bridge "late")
        (sendBridgeRequest true "t1" none ⟨[], []⟩).1 =
      (sendBridgeRequest true "t1" none ⟨[], []⟩).1 :=
  ⟨(c5_timeout_distinct_removed_discarded "t1" ⟨[], []⟩ (by simp)).1,
    (c5_timeout_distinct_removed_discarded "t1" ⟨[], []⟩ (by simp)).2.2.2.2
      (.bridge "late")⟩

/-- C4 (counterexample): a payload with no battery field yields a reading
whose battery is 100, not zero — data.get("battery", 100). -/
theorem c4_counterexample :
    (readingOfPayload 0 ⟨none, none, none⟩).battery = 100 ∧
    ¬(readingOfPayload 0 ⟨none, none, none⟩).battery = 0 := by
  constructor
  · rfl
  · decide

/-- C4 (amended): for every inbound role-mapped sensor payload, absent
temperature and humidity fields default to zero and an absent battery
field defaults to 100 in the constructed SensorReading; a malformed
payload leaves the role state unchanged (the delivery path catches, never
throws), and a well-formed one appends the constructed reading. -/
theorem c4_defaults_and_no_throw (now : ℚ) (p : SensorPayload)
    (s : SensorData) :
    (p.temperature = none → (readingOfPayload now p).temperature = 0) ∧
    (p.humidity = none → (readingOfPayload now p).humidity = 0) ∧
    (p.battery = none → (readingOfPayload now p).battery = 100) ∧
    onSensorMessage now none s = s ∧
    (∀ q, onSensorMessage now (some q) s =
      appendReading (readingOfPayload now q) s) := by
  refine ⟨?_, ?_, ?_, rfl, fun q => rfl⟩ <;>
    (intro h; simp [readingOfPayload, h])

theorem c4_defaults_and_no_throw_witness :
    (readingOfPayload 0 ⟨none, some 55, none⟩).temperature = 0 ∧
    onSensorMessage 0 none ({} : SensorData) = ({} : SensorData) :=
  ⟨(c4_defaults_and_no_throw 0 ⟨none, some 55, none⟩ ({} : SensorData)).1 rfl,
    (c4_defaults_and_no_throw 0 ⟨none, some 55, none⟩
      ({} : SensorData)).2.2.2.1⟩

theorem feelsLike_denominator_zero (lg : (x : ℚ) → 0 < x → ℚ) (t h : ℚ)
    (hh : ¬(t * 9 / 5 + 32 ≥ 80 ∧ h ≥ 40)) (hpos : ¬h ≤ 0)
    (hz : 243.12 + t = 0) : feelsLike lg t h = none := by
  simp only [feelsLike, if_neg hh, dif_neg hpos, hz]
  simp [pdiv]

/-- C10 (counterexample): feels_like raises ZeroDivisionError at
temp_c = -243.12 with humidity 50 ≥ 0: the branch guard passes (cool
temperature), humidity is positive, and the dew-point term divides by
b + temp_c = 243.12 - 243.12 = 0, which Python float arithmetic makes
exactly zero, so the claim that feels_like never raises for humidity ≥ 0
is false. -/
theorem c10_counterexample :
    feelsLike (fun _ _ => 0) (-243.12) 50 = none ∧ (0 : ℚ) ≤ 50 := by
  constructor
  · refine feelsLike_denominator_zero _ _ _ ?_ ?_ ?_
    · intro hc
      have h1 := hc.1
      norm_num at h1
    · norm_num
    · norm_num
  · norm_num

/-- C10 (amended): feels_like never evaluates math.log except at strictly
positive humidity (the embedding passes the logarithm a function defined
only on positive arguments, so this is certified by construction), and
for every temperature and every humidity ≤ 0 it returns temp_c exactly
unchanged without raising; it can still raise ZeroDivisionError for
positive humidity when the dew-point denominator b + temp_c vanishes, at
temp_c = -243.12. -/
theorem c10_nonpositive_humidity_identity
    (lg : (x : ℚ) → 0 < x → ℚ) (t h : ℚ) (hh : h ≤ 0) :
    feelsLike lg t h = some t := by
  unfold feelsLike
  rw [if_neg (fun hc => absurd hc.2 (by linarith))]
  rw [dif_pos hh]

theorem c10_nonpositive_humidity_identity_witness :
    feelsLike (fun _ _ => 0) 25 0 = some 25 :=
  c10_nonpositive_humidity_identity (fun _ _ => 0) 25 0 (by norm_num)

/-- C8 (counterexample): with a device configured, a nonzero fresh
timestamp, and a current reading of -243.12 degrees at humidity 50,
sensor_response propagates the ZeroDivisionError of feels_like instead of
returning an available reading, so the fourth arm of the claim fails. -/
theorem c8_counterexample :
    sensorResponse (fun _ _ => 0) id id "dev" "C"
      ⟨⟨-243.12, 50, 90, 10⟩, []⟩ 20 = none := by
  have hfl : feelsLike (fun _ _ => 0) (-243.12) 50 = none := by
    refine feelsLike_denominator_zero _ _ _ ?_ ?_ ?_
    · intro hc
      have h1 := hc.1
      norm_num at h1
    · norm_num
    · norm_num
  simp only [sensorResponse]
  rw [if_neg (by decide : ¬("dev" : String) = "")]
  rw [if_neg (by norm_num : ¬(10 : ℚ) = 0)]
  rw [if_neg (by norm_num [MAX_CACHE_AGE] : ¬(20 : ℚ) - 10 > MAX_CACHE_AGE)]
  rw [hfl]

/-- C8 (amended): sensor_response returns the three unavailable shapes
exactly as claimed — no device configured gives available False with no
error field; configured with timestamp 0 gives the Waiting for data
error; a reading older than the 90-minute ceiling gives the Sensor
offline error; the three shapes are pairwise distinct — and in the
remaining case it returns an available reading whenever the feels-like
computation does not raise (its dew-point denominator is nonzero). -/
theorem c8_unavailable_shapes (lg : (x : ℚ) → 0 < x → ℚ)
    (rnd1 rnd0 : ℚ → ℚ) (cfgDevice unit : String) (s : SensorData)
    (now : ℚ) :
    (cfgDevice = "" →
      sensorResponse lg rnd1 rnd0 cfgDevice unit s now =
        some (.unavailable none)) ∧
    (cfgDevice ≠ "" → s.current.timestamp = 0 →
      sensorResponse lg rnd1 rnd0 cfgDevice unit s now =
        some (.unavailable (some "Waiting for data"))) ∧
    (cfgDevice ≠ "" → s.current.timestamp ≠ 0 →
      now - s.current.timestamp > MAX_CACHE_AGE →
      sensorResponse lg rnd1 rnd0 cfgDevice unit s now =
        some (.unavailable (some "Sensor offline"))) ∧
    (∀ fl, cfgDevice ≠ "" → s.current.timestamp ≠ 0 →
      ¬now - s.current.timestamp > MAX_CACHE_AGE →
      feelsLike lg s.current.temperature s.current.humidity = some fl →
      ∃ t h f tt ht b a, sensorResponse lg rnd1 rnd0 cfgDevice unit s now =
        some (.available t h f tt ht b a)) ∧
    (SensorResp.unavailable none ≠ .unavailable (some "Waiting for data") ∧
      SensorResp.unavailable none ≠ .unavailable (some "Sensor offline") ∧
      SensorResp.unavailable (some "Waiting for data") ≠
        .unavailable (some "Sensor offline")) := by
  refine ⟨?_, ?_, ?_, ?_, by decide, by decide, by decide⟩
  · intro hc
    simp [sensorResponse, hc]
  · intro hc hts
    simp [sensorResponse, hc, hts]
  · intro hc hts hst
    simp [sensorResponse, hc, hts, hst]
  · intro fl hc hts hst hfl
    have heq : sensorResponse lg rnd1 rnd0 cfgDevice unit s now =
        some (.available
          (rnd1 (if unit = "F" then c_to_f s.current.temperature
            else s.current.temperature))
          (rnd1 s.current.humidity)
          (rnd1 (if unit = "F" then c_to_f fl else fl))
          (getTrend (fun r => r.temperature) TREND_THRESHOLD_TEMP
            s.current.temperature s.history)
          (getTrend (fun r => r.humidity) TREND_THRESHOLD_HUMIDITY
            s.current.humidity s.history)
          s.current.battery (rnd0 (now - s.current.timestamp))) := by
      simp only [sensorResponse, if_neg hc, if_neg hts, if_neg hst, hfl]
    exact ⟨_, _, _, _, _, _, _, heq⟩

theorem c8_unavailable_shapes_witness :
    sensorResponse (fun _ _ => 0) id id "" "C" ({} : SensorData) 0 =
      some (.unavailable none) ∧
    sensorResponse (fun _ _ => 0) id id "dev" "C" ({} : SensorData) 0 =
      some (.unavailable (some "Waiting for data")) :=
  ⟨(c8_unavailable_shapes (fun _ _ => 0) id id "" "C" ({} : SensorData)
      0).1 rfl,
    (c8_unavailable_shapes (fun _ _ => 0) id id "dev" "C" ({} : SensorData)
      0).2.1 (by decide) rfl⟩

end Mqtt

end HomeRelay
